import Mathlib

/-!
Verification of the voice-assistant session controller in `src/app.py`.

The repository is a Streamlit page (`main`, lines 460-683) that embeds an
HTML/JS voice interface (`create_voice_interface`, lines 68-458).  The
embedding below translates the two halves:

* the browser-side script state (`isListening`, `wakeWordDetected`,
  `permissionGranted`, lines 182-185) together with the handlers
  `recognition.onresult` (lines 278-334), `recognition.onerror`
  (lines 336-362), `recognition.onend` (lines 364-372), the `bot_response`
  message listener (lines 408-439) and the answer utterance's `onend`
  (lines 426-435);

* the server-side session state (`conversation_history`,
  `processed_queries`, lines 462-465), `get_ai_response` (lines 54-66),
  the voice-query branch of `main` (lines 501-556) and the text-input
  branch (lines 562-579).

Python/JS strings are Lean `String`s; the JS string methods used by the
source (`toLowerCase`, `trim`, `includes`, `replace` with the concrete
regexes that appear in the file) are spelled out on `List Char`.
-/

/-- JS `String.prototype.toLowerCase` (ASCII case mapping suffices for the
source's inputs). -/
def jsToLower (s : String) : String :=
  String.mk (s.data.map Char.toLower)

/-- Trimming on the character list: drop whitespace from both ends, as JS
`String.prototype.trim` does. -/
def jsTrimList (l : List Char) : List Char :=
  ((l.dropWhile Char.isWhitespace).reverse.dropWhile Char.isWhitespace).reverse

/-- JS `String.prototype.trim`. -/
def jsTrim (s : String) : String :=
  String.mk (jsTrimList s.data)

/-- Does `l` start with `p`? (helper for substring search). -/
def startsWithChars : List Char → List Char → Bool
  | [], _ => true
  | _ :: _, [] => false
  | p :: ps, c :: cs => p = c && startsWithChars ps cs

/-- Does `l` contain `pat` as a contiguous substring? -/
def containsChars (pat : List Char) : List Char → Bool
  | [] => startsWithChars pat []
  | c :: cs => startsWithChars pat (c :: cs) || containsChars pat cs

/-- JS `s.includes(pat)`. -/
def jsIncludes (s pat : String) : Bool :=
  containsChars pat.data s.data

/-- The trigger phrases tested by `recognition.onresult` (line 287):
`text.includes('hey bob') || text.includes('hi bob') || text.includes('hello bob')`.
Note the source checks exactly these three phrases. -/
def wakeTriggers : List String := ["hey bob", "hi bob", "hello bob"]

/-- Line 287 of `src/app.py`: the wake-word test applied to the lowercased,
trimmed transcript. -/
def containsWakeWord (text : String) : Bool :=
  jsIncludes text "hey bob" || jsIncludes text "hi bob" || jsIncludes text "hello bob"

/-- The iframe script's mutable variables (lines 182-185 of `src/app.py`).
`recognition` and the DOM nodes carry no decision-relevant state and are
omitted. -/
structure ScriptState where
  isListening : Bool
  wakeWordDetected : Bool
  permissionGranted : Bool
  deriving DecidableEq, Repr

/-- The script's initial variable values (lines 183-185: all `false`). -/
def initialScript : ScriptState := ⟨false, false, false⟩

/-- Observable actions of the iframe script: speaking a synthesis utterance
(`speechSynthesis.speak`) and delivering a recognized query to the server
(the URL-parameter navigation of lines 329-332). -/
inductive ScriptOut
  | speak (text : String)
  | dispatch (query : String)
  deriving DecidableEq, Repr

/-- `recognition.onresult` (lines 278-334).  The handler lowercases and trims
the transcript (line 280).  While `wakeWordDetected` is false it only tests
for a trigger phrase: on a match it sets the flag and speaks the fixed
confirmation `'Hello! What can I help you with?'` (lines 296-298); on a
non-match it only rewrites status text (lines 310-315).  Once the flag is
set, the raw transcript becomes the query: the handler stores it in URL
parameters and assigns `window.location.href` (line 332), which navigates
the document — the script's variables re-initialize (`initialScript`) and
the query travels to the server, modeled as the `dispatch` output.  No part
of the utterance after a trigger phrase is ever extracted as a command. -/
def onresult (s : ScriptState) (transcript : String) : ScriptState × List ScriptOut :=
  let text := jsTrim (jsToLower transcript)
  if s.wakeWordDetected = false then
    if containsWakeWord text then
      ({ s with wakeWordDetected := true }, [ScriptOut.speak "Hello! What can I help you with?"])
    else
      (s, [])
  else
    (initialScript, [ScriptOut.dispatch transcript])

/-- The error codes distinguished by the `switch` in `recognition.onerror`
(lines 342-357); `other` carries the raw `event.error` string for codes the
switch leaves at the default message. -/
inductive ErrKind
  | notAllowed
  | permissionDenied
  | noSpeech
  | audioCapture
  | network
  | other (code : String)
  deriving DecidableEq, Repr

/-- The raw `event.error` string for each kind. -/
def errorName : ErrKind → String
  | ErrKind.notAllowed => "not-allowed"
  | ErrKind.permissionDenied => "permission-denied"
  | ErrKind.noSpeech => "no-speech"
  | ErrKind.audioCapture => "audio-capture"
  | ErrKind.network => "network"
  | ErrKind.other code => code

/-- The per-kind `errorMessage` chosen by the `switch` (lines 340-357). -/
def errorMessageFor : ErrKind → String
  | ErrKind.notAllowed => "Microphone permission denied. Please allow access and refresh."
  | ErrKind.permissionDenied => "Microphone permission denied. Please allow access and refresh."
  | ErrKind.noSpeech => "No speech detected. Try speaking louder."
  | ErrKind.audioCapture => "No microphone found. Please check your microphone."
  | ErrKind.network => "Network error. Check your internet connection."
  | ErrKind.other _ => "Please try again."

/-- `recognition.onerror` (lines 336-362): the permission cases additionally
clear `permissionGranted` (line 346); every case writes the status line
`'Error: ' + event.error + '. ' + errorMessage` (line 359) and ends with
`isListening = false` (line 361).  `wakeWordDetected` is not touched. -/
def onerror (s : ScriptState) (k : ErrKind) : ScriptState × String :=
  let s1 :=
    if k = ErrKind.notAllowed ∨ k = ErrKind.permissionDenied then
      { s with permissionGranted := false }
    else s
  ({ s1 with isListening := false },
   "Error: " ++ errorName k ++ ". " ++ errorMessageFor k)

/-- Strip the characters removed by `responseText.replace(/[*#`]/g, '')`
(line 415). -/
def stripMarkdownChars (l : List Char) : List Char :=
  l.filter (fun c => !(c = '*' || c = '#' || c = '\x60'))

/-- `responseText.replace(/\n/g, ' ')` (line 416). -/
def newlineToSpace (l : List Char) : List Char :=
  l.map (fun c => if c = '\n' then ' ' else c)

/-- `responseText.replace(/\s+/g, ' ')` (line 417): each maximal whitespace
run becomes a single space. -/
def collapseWhitespace : List Char → List Char
  | [] => []
  | [a] => [if a.isWhitespace then ' ' else a]
  | a :: b :: rest =>
    if a.isWhitespace && b.isWhitespace then collapseWhitespace (b :: rest)
    else (if a.isWhitespace then ' ' else a) :: collapseWhitespace (b :: rest)

/-- The cleaning pipeline of the `bot_response` listener (lines 414-418):
strip the markdown characters, newlines to spaces, collapse whitespace,
trim.  The source performs no truncation of any kind afterwards: the
cleaned text goes to `SpeechSynthesisUtterance` whole (line 421). -/
def sanitizeForSpeech (s : String) : String :=
  String.mk (jsTrimList (collapseWhitespace (newlineToSpace (stripMarkdownChars s.data))))

/-- Events delivered to the iframe script: recognition engine callbacks,
the `bot_response` message from the host page, and the answer utterance's
`onend`. -/
inductive RecEvent
  | recStart
  | result (transcript : String)
  | errorEvt (kind : ErrKind)
  | recEnd
  | botResponse (response : String)
  | synthEnd
  deriving DecidableEq, Repr

/-- One event step of the iframe script: `onstart` sets `isListening`
(line 266), `onresult` as above, `onerror` as above, `onend` clears
`isListening` (line 366), the `bot_response` listener speaks the sanitized
text (lines 413-437), and the answer utterance's `onend` clears
`wakeWordDetected` (line 428). -/
def scriptStep (s : ScriptState) : RecEvent → ScriptState × List ScriptOut
  | RecEvent.recStart => ({ s with isListening := true }, [])
  | RecEvent.result u => onresult s u
  | RecEvent.errorEvt k => ((onerror s k).1, [])
  | RecEvent.recEnd => ({ s with isListening := false }, [])
  | RecEvent.botResponse r => (s, [ScriptOut.speak (sanitizeForSpeech r)])
  | RecEvent.synthEnd => ({ s with wakeWordDetected := false }, [])

/-- Run a sequence of events through the script, collecting outputs. -/
def runScript (s : ScriptState) : List RecEvent → ScriptState × List ScriptOut
  | [] => (s, [])
  | e :: es =>
    let r1 := scriptStep s e
    let r2 := runScript r1.1 es
    (r2.1, r1.2 ++ r2.2)

/-- Number of `dispatch` outputs in a script output list. -/
def dispatchCount : List ScriptOut → Nat
  | [] => 0
  | ScriptOut.dispatch _ :: rest => dispatchCount rest + 1
  | ScriptOut.speak _ :: rest => dispatchCount rest

/-- Number of result events whose (lowercased, trimmed) transcript contains
a wake phrase. -/
def wakeResultCount : List RecEvent → Nat
  | [] => 0
  | RecEvent.result u :: rest =>
    (if containsWakeWord (jsTrim (jsToLower u)) then 1 else 0) + wakeResultCount rest
  | _ :: rest => wakeResultCount rest

/-- One entry of `st.session_state.conversation_history` (lines 523-527 and
571-575 append dictionaries with keys `user`, `bob`, `timestamp`). -/
structure QueryRecord where
  user : String
  bob : String
  timestamp : String
  deriving DecidableEq, Repr

/-- The Streamlit session state initialized at lines 462-465:
`conversation_history` (a list) and `processed_queries` (a set, modeled as
the list of ids added so far; the code only ever inserts after a membership
test, so list membership is faithful). -/
structure ServerState where
  conversation_history : List QueryRecord
  processed_queries : List String
  deriving DecidableEq, Repr

/-- User-observable outputs of the server-side handlers: `st.info`,
`st.error`, `st.success`, the `bot_response` postMessage script emitted via
`components.html` (line 556), and log entries.  The source never emits a
log entry on the deduplication path; the constructor exists so that its
absence is expressible. -/
inductive Output
  | info (msg : String)
  | error (msg : String)
  | success (msg : String)
  | synthesis (response : String)
  | log (msg : String)
  deriving DecidableEq, Repr

/-- `get_ai_response` (lines 54-66).  `agent` is `get_agent()`'s cached
result (`none` when initialization failed, line 52); `run` abstracts
`agent.run(query)`, returning the response content or the message of the
exception the `except` clause catches.  The function always returns a
string: the `agent is None` branch returns the connection apology
(line 58) and the `except` branch shows `st.error` and returns the
processing apology (lines 65-66); the success branch returns
`response.content.strip()` (line 63). -/
def get_ai_response (agent : Option Unit) (run : String → Except String String)
    (query : String) : String × List Output :=
  match agent with
  | none => ("Sorry, I'm having trouble connecting to my knowledge base right now.", [])
  | some _ =>
    match run query with
    | Except.ok content => (jsTrim content, [])
    | Except.error e =>
      ("Sorry, I encountered an error while processing your question.",
       [Output.error ("🚨 Error getting AI response: " ++ e)])

/-- One character-replacement pass, as JS `replace` with a single-character
global pattern. -/
def replaceChar (s : String) (c : Char) (r : List Char) : String :=
  String.mk (s.data.foldr (fun a acc => if a = c then r ++ acc else a :: acc) [])

/-- Line 530: `ai_response.replace('"', '\\"').replace("'", "\\'")
.replace('\n', ' ').replace('\r', '')`. -/
def escapeForJs (s : String) : String :=
  replaceChar (replaceChar (replaceChar (replaceChar s '"' ['\\', '"'])
    '\'' ['\\', '\'']) '\n' [' ']) '\r' []

/-- The voice-query branch of `main` (lines 505-556), entered with the
decoded query and timestamp taken from the URL parameters.  The id is the
f-string `f"{decoded_query}_{voice_timestamp}"` (line 511).  A fresh id is
added to `processed_queries`, `st.info` is shown, `get_ai_response` is
called (counted in the middle component), the record is appended, and the
`bot_response` script with the escaped answer is emitted.  A duplicate id
falls through the `if` at line 512: the branch has no `else` and no
statement runs — no log, no output, no state change. -/
def process_voice_query (srv : ServerState) (agent : Option Unit)
    (run : String → Except String String)
    (decoded_query voice_timestamp nowStr : String) : ServerState × Nat × List Output :=
  let query_id := decoded_query ++ "_" ++ voice_timestamp
  if query_id ∈ srv.processed_queries then
    (srv, 0, [])
  else
    let r := get_ai_response agent run decoded_query
    ({ conversation_history :=
         srv.conversation_history ++ [⟨decoded_query, r.1, nowStr⟩],
       processed_queries := srv.processed_queries ++ [query_id] },
     1,
     [Output.info ("🎙️ Processing voice query: '" ++ decoded_query ++ "'")] ++ r.2 ++
       [Output.synthesis (escapeForJs r.1)])

/-- The text-input branch of `main` (lines 569-579): guarded by
`if ask_button and text_query:` (Python truthiness: the button was pressed
and the string is non-empty).  It calls `get_ai_response`, appends a
record, and shows the answer with `st.success`; `processed_queries` is
never consulted or modified and no `bot_response` script is emitted. -/
def process_text_query (srv : ServerState) (agent : Option Unit)
    (run : String → Except String String)
    (text_query nowStr : String) (ask_button : Bool) : ServerState × Nat × List Output :=
  if ask_button = true ∧ text_query ≠ "" then
    let r := get_ai_response agent run text_query
    ({ conversation_history :=
         srv.conversation_history ++ [⟨text_query, r.1, nowStr⟩],
       processed_queries := srv.processed_queries },
     1,
     r.2 ++ [Output.success ("**Bob:** " ++ r.1)])
  else
    (srv, 0, [])

/-- The whole page: iframe script state plus Streamlit session state. -/
structure SystemState where
  script : ScriptState
  server : ServerState
  deriving DecidableEq, Repr

/-- A recognition error reaches only the iframe's `onerror` handler; the
Streamlit session state is not involved (lines 336-362 touch no server
state). -/
def systemRecognitionError (sys : SystemState) (k : ErrKind) : SystemState × String :=
  let r := onerror sys.script k
  ({ sys with script := r.1 }, r.2)

/-- A constant failing answer service, for concrete instantiations. -/
def runFailConst : String → Except String String :=
  fun _ => Except.error "boom"

/-- A constant succeeding answer service, for concrete instantiations. -/
def runOkConst : String → Except String String :=
  fun _ => Except.ok "2 + 2 is 4."

theorem dispatchCount_append (a b : List ScriptOut) :
    dispatchCount (a ++ b) = dispatchCount a + dispatchCount b := by
  induction a with
  | nil => simp [dispatchCount]
  | cons x rest ih =>
    cases x with
    | speak m => simpa [dispatchCount] using ih
    | dispatch q => simp [dispatchCount, ih]; omega

theorem startsWithChars_append (p r : List Char) :
    startsWithChars p (p ++ r) = true := by
  induction p with
  | nil => simp [startsWithChars]
  | cons c cs ih => simp [startsWithChars, ih]

theorem containsChars_of_starts (p l : List Char)
    (h : startsWithChars p l = true) : containsChars p l = true := by
  cases l with
  | nil => simpa [containsChars] using h
  | cons c cs => simp [containsChars, h]

theorem containsChars_front (p r : List Char) :
    containsChars p (p ++ r) = true :=
  containsChars_of_starts p (p ++ r) (startsWithChars_append p r)

theorem mem_of_mem_dropWhile (c : Char) (p : Char → Bool) (l : List Char)
    (h : c ∈ l.dropWhile p) : c ∈ l := by
  induction l with
  | nil => simp at h
  | cons a as ih =>
    by_cases hp : p a = true
    · simp [List.dropWhile_cons, hp] at h
      exact List.mem_cons_of_mem a (ih h)
    · simpa [List.dropWhile_cons, hp] using h

theorem mem_jsTrimList (c : Char) (l : List Char) (h : c ∈ jsTrimList l) : c ∈ l := by
  unfold jsTrimList at h
  rw [List.mem_reverse] at h
  have h2 := mem_of_mem_dropWhile c Char.isWhitespace _ h
  rw [List.mem_reverse] at h2
  exact mem_of_mem_dropWhile c Char.isWhitespace l h2

theorem mem_collapseWhitespace (c : Char) (l : List Char)
    (h : c ∈ collapseWhitespace l) :
    c = ' ' ∨ (c ∈ l ∧ c.isWhitespace = false) := by
  induction l with
  | nil => simp [collapseWhitespace] at h
  | cons a rest ih =>
    cases rest with
    | nil =>
      simp [collapseWhitespace] at h
      by_cases hw : a.isWhitespace = true
      · left; simpa [hw] using h
      · right
        simp only [Bool.not_eq_true] at hw
        simp [hw] at h
        exact ⟨by simp [h], by simpa [h] using hw⟩
    | cons b rest2 =>
      by_cases hab : (a.isWhitespace && b.isWhitespace) = true
      · rw [collapseWhitespace, if_pos hab] at h
        rcases ih h with h1 | ⟨h2, h3⟩
        · exact Or.inl h1
        · exact Or.inr ⟨List.mem_cons_of_mem a h2, h3⟩
      · rw [collapseWhitespace, if_neg hab] at h
        rcases List.mem_cons.mp h with h1 | h1
        · by_cases hw : a.isWhitespace = true
          · left; simpa [hw] using h1
          · right
            simp only [Bool.not_eq_true] at hw
            simp [hw] at h1
            exact ⟨by simp [h1], by simpa [h1] using hw⟩
        · rcases ih h1 with h2 | ⟨h2, h3⟩
          · exact Or.inl h2
          · exact Or.inr ⟨List.mem_cons_of_mem a h2, h3⟩

theorem dropWhile_rev_front (c : Char) (tl : List Char)
    (hc : c.isWhitespace = false) (xs : List Char) :
    ∃ r, (List.dropWhile Char.isWhitespace (xs ++ (c :: tl))).reverse =
      (c :: tl).reverse ++ r := by
  induction xs with
  | nil =>
    refine ⟨[], ?_⟩
    simp [List.dropWhile_cons, hc]
  | cons a as ih =>
    by_cases ha : a.isWhitespace = true
    · simpa [List.dropWhile_cons, ha] using ih
    · refine ⟨as.reverse ++ [a], ?_⟩
      simp [List.dropWhile_cons, ha, List.reverse_append]

theorem trimmed_keeps_front (hd : Char) (rest m : List Char)
    (hhd : hd.isWhitespace = false) (c : Char) (tl : List Char)
    (hrev : (hd :: rest).reverse = c :: tl) (hc : c.isWhitespace = false) :
    ∃ r, jsTrimList ((hd :: rest) ++ m) = (hd :: rest) ++ r := by
  have hdrop : List.dropWhile Char.isWhitespace ((hd :: rest) ++ m) =
      (hd :: rest) ++ m := by
    simp [List.dropWhile_cons, hhd]
  have hrev2 : ((hd :: rest) ++ m).reverse = m.reverse ++ (c :: tl) := by
    rw [List.reverse_append, hrev]
  obtain ⟨r, hr⟩ := dropWhile_rev_front c tl hc m.reverse
  refine ⟨r, ?_⟩
  unfold jsTrimList
  rw [hdrop, hrev2, hr]
  have : (c :: tl).reverse = hd :: rest := by
    rw [← hrev, List.reverse_reverse]
  rw [this]

theorem containsWake_aux (p s2 : String) (hd : Char) (rest : List Char)
    (hdp : p.data = hd :: rest) (hhd : hd.isWhitespace = false)
    (c : Char) (tl : List Char) (hrev : (hd :: rest).reverse = c :: tl)
    (hc : c.isWhitespace = false)
    (hlow : List.map Char.toLower p.data = p.data) :
    containsChars p.data (jsTrimList (((p ++ " ") ++ s2).data.map Char.toLower)) = true := by
  have hdata : ((p ++ " ") ++ s2).data = (p.data ++ [' ']) ++ s2.data := by
    rw [String.data_append, String.data_append]
  rw [hdata, List.map_append, List.map_append, hlow]
  have hsp : List.map Char.toLower [' '] = [' '] := by decide
  rw [hsp, List.append_assoc, List.singleton_append, hdp]
  obtain ⟨r, hr⟩ :=
    trimmed_keeps_front hd rest (' ' :: List.map Char.toLower s2.data) hhd c tl hrev hc
  rw [hr, ← hdp]
  exact containsChars_front p.data r

theorem containsWake_of_trigger_padded (t s2 : String) (ht : t ∈ wakeTriggers) :
    containsWakeWord (jsTrim (jsToLower (t ++ " " ++ s2))) = true := by
  have harg : ∀ u : String,
      jsTrim (jsToLower u) = String.mk (jsTrimList (u.data.map Char.toLower)) := by
    intro u; rfl
  simp only [wakeTriggers, List.mem_cons, List.not_mem_nil, or_false] at ht
  rcases ht with h | h | h
  · subst h
    have := containsWake_aux "hey bob" s2 'h' "ey bob".data rfl (by decide)
      'b' ['o', 'b', ' ', 'y', 'e', 'h'] (by decide) (by decide) (by decide)
    simp [containsWakeWord, jsIncludes, harg] at this ⊢
    tauto
  · subst h
    have := containsWake_aux "hi bob" s2 'h' "i bob".data rfl (by decide)
      'b' ['o', 'b', ' ', 'i', 'h'] (by decide) (by decide) (by decide)
    simp [containsWakeWord, jsIncludes, harg] at this ⊢
    tauto
  · subst h
    have := containsWake_aux "hello bob" s2 'h' "ello bob".data rfl (by decide)
      'b' ['o', 'b', ' ', 'o', 'l', 'l', 'e', 'h'] (by decide) (by decide) (by decide)
    simp [containsWakeWord, jsIncludes, harg] at this ⊢
    tauto

theorem onerror_wakeWordDetected (s : ScriptState) (k : ErrKind) :
    ((onerror s k).1).wakeWordDetected = s.wakeWordDetected := by
  unfold onerror
  split <;> rfl

theorem runScript_dispatch_le (es : List RecEvent) :
    ∀ s : ScriptState, dispatchCount (runScript s es).2 ≤
      wakeResultCount es + (if s.wakeWordDetected then 1 else 0) := by
  induction es with
  | nil => intro s; simp [runScript, dispatchCount]
  | cons e rest ih =>
    intro s
    cases e with
    | recStart =>
      simpa [runScript, scriptStep, wakeResultCount, dispatchCount_append, dispatchCount]
        using ih { s with isListening := true }
    | recEnd =>
      simpa [runScript, scriptStep, wakeResultCount, dispatchCount_append, dispatchCount]
        using ih { s with isListening := false }
    | synthEnd =>
      have h := ih { s with wakeWordDetected := false }
      simp [runScript, scriptStep, wakeResultCount, dispatchCount_append, dispatchCount] at h ⊢
      omega
    | botResponse r =>
      simpa [runScript, scriptStep, wakeResultCount, dispatchCount_append, dispatchCount]
        using ih s
    | errorEvt k =>
      have h := ih (onerror s k).1
      rw [onerror_wakeWordDetected] at h
      simpa [runScript, scriptStep, wakeResultCount, dispatchCount_append, dispatchCount]
        using h
    | result u =>
      cases hb : s.wakeWordDetected with
      | true =>
        have h := ih initialScript
        simp [runScript, scriptStep, onresult, hb, wakeResultCount,
          dispatchCount_append, dispatchCount, initialScript] at h ⊢
        omega
      | false =>
        cases hcw : containsWakeWord (jsTrim (jsToLower u)) with
        | true =>
          have h := ih { s with wakeWordDetected := true }
          simp [runScript, scriptStep, onresult, hb, hcw, wakeResultCount,
            dispatchCount_append, dispatchCount] at h ⊢
          omega
        | false =>
          have h := ih s
          simp [runScript, scriptStep, onresult, hb, hcw, wakeResultCount,
            dispatchCount_append, dispatchCount] at h ⊢
          omega

theorem stripMarkdownChars_replicate (n : Nat) :
    stripMarkdownChars (List.replicate n 'a') = List.replicate n 'a' := by
  induction n with
  | zero => rfl
  | succ m ih =>
    rw [List.replicate_succ]
    unfold stripMarkdownChars at ih ⊢
    rw [List.filter_cons]
    simp [ih]

theorem newlineToSpace_replicate (n : Nat) :
    newlineToSpace (List.replicate n 'a') = List.replicate n 'a' := by
  unfold newlineToSpace
  rw [List.map_replicate]
  simp

theorem collapseWhitespace_replicate (n : Nat) :
    collapseWhitespace (List.replicate n 'a') = List.replicate n 'a' := by
  induction n with
  | zero => rfl
  | succ m ih =>
    rw [List.replicate_succ]
    cases m with
    | zero => simp [collapseWhitespace]
    | succ k =>
      rw [List.replicate_succ]
      rw [collapseWhitespace]
      simp only [show ('a'.isWhitespace && 'a'.isWhitespace) = false by decide,
        if_neg (Bool.false_ne_true), show 'a'.isWhitespace = false by decide]
      rw [← List.replicate_succ, ih]
      simp [List.replicate_succ]

theorem jsTrimList_replicate (n : Nat) :
    jsTrimList (List.replicate n 'a') = List.replicate n 'a' := by
  cases n with
  | zero => rfl
  | succ m =>
    unfold jsTrimList
    rw [List.replicate_succ, List.dropWhile_cons]
    simp only [show 'a'.isWhitespace = false by decide, Bool.false_eq_true, if_false]
    rw [← List.replicate_succ, List.reverse_replicate, List.replicate_succ,
      List.dropWhile_cons]
    simp only [show 'a'.isWhitespace = false by decide, Bool.false_eq_true, if_false]
    rw [← List.replicate_succ, List.reverse_replicate]

theorem sanitize_replicate (n : Nat) :
    sanitizeForSpeech (String.mk (List.replicate n 'a')) =
      String.mk (List.replicate n 'a') := by
  unfold sanitizeForSpeech
  rw [show (String.mk (List.replicate n 'a')).data = List.replicate n 'a' from rfl,
    stripMarkdownChars_replicate, newlineToSpace_replicate,
    collapseWhitespace_replicate, jsTrimList_replicate]

theorem sanitize_chars (s : String) :
    ∀ c ∈ (sanitizeForSpeech s).data,
      c ≠ '*' ∧ c ≠ '#' ∧ c ≠ '\x60' ∧ c ≠ '\n' := by
  intro c hc
  have h1 : c ∈ collapseWhitespace (newlineToSpace (stripMarkdownChars s.data)) :=
    mem_jsTrimList c _ hc
  rcases mem_collapseWhitespace c _ h1 with h2 | ⟨h2, h3⟩
  · subst h2; refine ⟨by decide, by decide, by decide, by decide⟩
  · unfold newlineToSpace at h2
    rcases List.mem_map.mp h2 with ⟨a, ha, hfa⟩
    by_cases han : a = '\n'
    · subst han
      simp at hfa
      subst hfa
      simp at h3
    · rw [if_neg han] at hfa
      subst hfa
      unfold stripMarkdownChars at ha
      have hp := (List.mem_filter.mp ha).2
      simp only [Bool.not_eq_true', Bool.or_eq_false_iff] at hp
      refine ⟨?_, ?_, ?_, han⟩
      · simpa using hp.1.1
      · simpa using hp.1.2
      · simpa using hp.2

/-- C1: processing the voice query `(c, t)` twice within one session (same
derived id `c ++ "_" ++ t`) triggers exactly one Answer Service call
(`get_ai_response`), appends exactly one conversation record, and the
second processing attempt leaves the session state unchanged. -/
theorem voice_query_dedup (srv : ServerState) (agent : Option Unit)
    (run run2 : String → Except String String) (c t now1 now2 : String)
    (hfresh : (c ++ "_" ++ t) ∉ srv.processed_queries) :
    (process_voice_query srv agent run c t now1).2.1 = 1 ∧
    (process_voice_query srv agent run c t now1).1.conversation_history =
      srv.conversation_history ++ [⟨c, (get_ai_response agent run c).1, now1⟩] ∧
    (process_voice_query (process_voice_query srv agent run c t now1).1
        agent run2 c t now2).2.1 = 0 ∧
    (process_voice_query (process_voice_query srv agent run c t now1).1
        agent run2 c t now2).1 =
      (process_voice_query srv agent run c t now1).1 := by
  have h1 : process_voice_query srv agent run c t now1 =
      ({ conversation_history :=
           srv.conversation_history ++ [⟨c, (get_ai_response agent run c).1, now1⟩],
         processed_queries := srv.processed_queries ++ [c ++ "_" ++ t] },
       1,
       [Output.info ("🎙️ Processing voice query: '" ++ c ++ "'")] ++
         (get_ai_response agent run c).2 ++
         [Output.synthesis (escapeForJs (get_ai_response agent run c).1)]) := by
    unfold process_voice_query
    rw [if_neg hfresh]
  have hmem : (c ++ "_" ++ t) ∈ srv.processed_queries ++ [c ++ "_" ++ t] := by
    simp
  refine ⟨by rw [h1], by rw [h1], ?_, ?_⟩
  · rw [h1]
    unfold process_voice_query
    rw [if_pos hmem]
  · rw [h1]
    unfold process_voice_query
    rw [if_pos hmem]

theorem voice_query_dedup_witness :
    (("q" ++ "_" ++ "1") ∉ (⟨[], []⟩ : ServerState).processed_queries) ∧
    (process_voice_query ⟨[], []⟩ (some ()) runOkConst "q" "1" "12:00:00").2.1 = 1 ∧
    (process_voice_query (process_voice_query ⟨[], []⟩ (some ()) runOkConst
        "q" "1" "12:00:00").1 (some ()) runOkConst "q" "1" "12:00:05").2.1 = 0 :=
  ⟨by decide,
   (voice_query_dedup ⟨[], []⟩ (some ()) runOkConst runOkConst
     "q" "1" "12:00:00" "12:00:05" (by decide)).1,
   (voice_query_dedup ⟨[], []⟩ (some ()) runOkConst runOkConst
     "q" "1" "12:00:00" "12:00:05" (by decide)).2.2.1⟩

/-- C2 (counterexample): an utterance consisting of a trigger phrase
followed by a command suffix does NOT yield an extracted, dispatched
command; the handler only speaks the fixed confirmation.  Likewise a bare
trigger phrase does not yield a default command "Hello": the same fixed
confirmation is spoken and nothing is dispatched. -/
theorem wake_extract_counterexample :
    (onresult initialScript "hey bob what time is it").2 =
      [ScriptOut.speak "Hello! What can I help you with?"] ∧
    (onresult initialScript "hey bob").2 =
      [ScriptOut.speak "Hello! What can I help you with?"] := by
  constructor <;> decide

/-- C2 (amended): a final utterance `t ++ " " ++ s` (or `t` alone) for a
trigger phrase `t`, received before wake-word detection, only sets the
wake-word flag and speaks the fixed confirmation; no command is extracted
from that utterance.  The entire next final utterance is then dispatched
verbatim as the query. -/
theorem wake_two_stage (t s2 : String) (st : ScriptState)
    (ht : t ∈ wakeTriggers) (hf : st.wakeWordDetected = false) :
    (onresult st (t ++ " " ++ s2)).1.wakeWordDetected = true ∧
    (onresult st (t ++ " " ++ s2)).2 =
      [ScriptOut.speak "Hello! What can I help you with?"] ∧
    (onresult st t).1.wakeWordDetected = true ∧
    (onresult st t).2 = [ScriptOut.speak "Hello! What can I help you with?"] ∧
    (∀ u : String, onresult { st with wakeWordDetected := true } u =
      (initialScript, [ScriptOut.dispatch u])) := by
  have hcw1 := containsWake_of_trigger_padded t s2 ht
  have hcw2 : containsWakeWord (jsTrim (jsToLower t)) = true := by
    simp only [wakeTriggers, List.mem_cons, List.not_mem_nil, or_false] at ht
    rcases ht with h | h | h <;> subst h <;> decide
  refine ⟨?_, ?_, ?_, ?_, ?_⟩
  · simp [onresult, hf, hcw1]
  · simp [onresult, hf, hcw1]
  · simp [onresult, hf, hcw2]
  · simp [onresult, hf, hcw2]
  · intro u
    simp [onresult]

theorem wake_two_stage_witness :
    ("hey bob" ∈ wakeTriggers) ∧
    (initialScript.wakeWordDetected = false) ∧
    (onresult initialScript ("hey bob" ++ " " ++ "what time is it")).1.wakeWordDetected = true ∧
    (onresult initialScript ("hey bob" ++ " " ++ "what time is it")).2 =
      [ScriptOut.speak "Hello! What can I help you with?"] :=
  ⟨by decide, rfl,
   (wake_two_stage "hey bob" "what time is it" initialScript (by decide) rfl).1,
   (wake_two_stage "hey bob" "what time is it" initialScript (by decide) rfl).2.1⟩

/-- C3 (counterexample): the utterance "ok bob" contains the phrase
"ok bob", yet the wake word is not detected — the source only checks
"hey bob", "hi bob" and "hello bob" (line 287); "ok bob" is not in the
code's trigger set. -/
theorem ok_bob_counterexample :
    (onresult initialScript "ok bob").1.wakeWordDetected = false ∧
    jsIncludes (jsTrim (jsToLower "ok bob")) "ok bob" = true := by
  constructor <;> decide

/-- C3 (amended): while awaiting the wake word, the wake word is detected
iff the lowercased, trimmed utterance contains one of the THREE phrases
"hey bob", "hi bob", "hello bob" (case-insensitive substring match). -/
theorem wake_match_amended (s : ScriptState) (u : String)
    (hf : s.wakeWordDetected = false) :
    (onresult s u).1.wakeWordDetected = true ↔
      (jsIncludes (jsTrim (jsToLower u)) "hey bob" = true ∨
       jsIncludes (jsTrim (jsToLower u)) "hi bob" = true ∨
       jsIncludes (jsTrim (jsToLower u)) "hello bob" = true) := by
  cases hcw : containsWakeWord (jsTrim (jsToLower u)) with
  | true =>
    have hd := hcw
    simp [containsWakeWord] at hd
    simp [onresult, hf, hcw]
    tauto
  | false =>
    have hd : (jsIncludes (jsTrim (jsToLower u)) "hey bob" = false ∧
        jsIncludes (jsTrim (jsToLower u)) "hi bob" = false) ∧
        jsIncludes (jsTrim (jsToLower u)) "hello bob" = false := by
      simpa [containsWakeWord] using hcw
    simp [onresult, hf, hcw, hd.1.1, hd.1.2, hd.2]

theorem wake_match_witness :
    (initialScript.wakeWordDetected = false) ∧
    ((onresult initialScript "hey bob").1.wakeWordDetected = true ↔
      (jsIncludes (jsTrim (jsToLower "hey bob")) "hey bob" = true ∨
       jsIncludes (jsTrim (jsToLower "hey bob")) "hi bob" = true ∨
       jsIncludes (jsTrim (jsToLower "hey bob")) "hello bob" = true)) :=
  ⟨rfl, wake_match_amended initialScript "hey bob" rfl⟩

/-- C4: every Answer Service failure (exception in `agent.run`, or an
unavailable agent) is caught and converted into an apology string that is
returned in place of an answer; the string is recorded in the conversation
history and passed to speech synthesis exactly like a normal answer (the
`bot_response` output carries it, and the iframe speaks its sanitized
form).  The embedding of `get_ai_response` is a total function: the
`except` branch (lines 64-66) returns the apology rather than
propagating. -/
theorem answer_service_failure (srv : ServerState) (agent : Option Unit)
    (run : String → Except String String) (c t now e : String)
    (hfresh : (c ++ "_" ++ t) ∉ srv.processed_queries)
    (hfail : agent = none ∨ run c = Except.error e) :
    ((get_ai_response agent run c).1 =
        "Sorry, I'm having trouble connecting to my knowledge base right now." ∨
      (get_ai_response agent run c).1 =
        "Sorry, I encountered an error while processing your question.") ∧
    Output.synthesis (escapeForJs (get_ai_response agent run c).1) ∈
      (process_voice_query srv agent run c t now).2.2 ∧
    (process_voice_query srv agent run c t now).1.conversation_history =
      srv.conversation_history ++ [⟨c, (get_ai_response agent run c).1, now⟩] ∧
    (∀ sc : ScriptState,
      (scriptStep sc (RecEvent.botResponse (get_ai_response agent run c).1)).2 =
        [ScriptOut.speak (sanitizeForSpeech (get_ai_response agent run c).1)]) := by
  refine ⟨?_, ?_, ?_, fun sc => rfl⟩
  · cases agent with
    | none => left; rfl
    | some a =>
      rcases hfail with h | h
      · exact absurd h (by simp)
      · right
        simp [get_ai_response, h]
  · unfold process_voice_query
    rw [if_neg hfresh]
    simp
  · unfold process_voice_query
    rw [if_neg hfresh]

theorem answer_service_failure_witness :
    (("q" ++ "_" ++ "1") ∉ (⟨[], []⟩ : ServerState).processed_queries) ∧
    (runFailConst "q" = Except.error "boom") ∧
    ((get_ai_response (some ()) runFailConst "q").1 =
        "Sorry, I'm having trouble connecting to my knowledge base right now." ∨
      (get_ai_response (some ()) runFailConst "q").1 =
        "Sorry, I encountered an error while processing your question.") ∧
    Output.synthesis (escapeForJs (get_ai_response (some ()) runFailConst "q").1) ∈
      (process_voice_query ⟨[], []⟩ (some ()) runFailConst "q" "1" "12:00:00").2.2 :=
  ⟨by decide, rfl,
   (answer_service_failure ⟨[], []⟩ (some ()) runFailConst "q" "1" "12:00:00" "boom"
     (by decide) (Or.inr rfl)).1,
   (answer_service_failure ⟨[], []⟩ (some ()) runFailConst "q" "1" "12:00:00" "boom"
     (by decide) (Or.inr rfl)).2.1⟩

/-- C5: a final utterance with no trigger phrase, received while the
session is awaiting the wake word, leaves the script state completely
unchanged (in particular the wake-word flag stays false) and produces no
dispatch and no other output. -/
theorem nonmatch_no_change (s : ScriptState) (u : String)
    (hf : s.wakeWordDetected = false)
    (hm : containsWakeWord (jsTrim (jsToLower u)) = false) :
    onresult s u = (s, []) := by
  simp [onresult, hf, hm]

theorem nonmatch_no_change_witness :
    (initialScript.wakeWordDetected = false) ∧
    (containsWakeWord (jsTrim (jsToLower "what time is it")) = false) ∧
    onresult initialScript "what time is it" = (initialScript, []) :=
  ⟨rfl, by decide,
   nonmatch_no_change initialScript "what time is it" rfl (by decide)⟩

/-- C6 (counterexample): the cleaning pipeline performs no truncation: a
301-character answer is synthesized at full length, exceeding the claimed
300-character bound. -/
theorem sanitize_counterexample :
    300 < (sanitizeForSpeech (String.mk (List.replicate 301 'a'))).length := by
  rw [sanitize_replicate, String.length_mk, List.length_replicate]
  omega

/-- C6 (amended): before synthesis the answer is sanitized — markdown
emphasis characters are removed, newlines (and all whitespace runs) become
single spaces, and the result is trimmed — but no truncation of any kind
is performed: for every length there is an answer whose sanitized form has
exactly that length, so no fixed bound (in particular not 300) holds. -/
theorem sanitize_amended :
    (∀ s : String, ((sanitizeForSpeech s).data.all
      (fun c => !(c = '*' || c = '#' || c = '\x60' || c = '\n'))) = true) ∧
    (∀ n : Nat, ∃ s : String, (sanitizeForSpeech s).length = n) := by
  constructor
  · intro s
    rw [List.all_eq_true]
    intro c hc
    have h := sanitize_chars s c hc
    simp [h.1, h.2.1, h.2.2.1, h.2.2.2]
  · intro n
    refine ⟨String.mk (List.replicate n 'a'), ?_⟩
    rw [sanitize_replicate, String.length_mk, List.length_replicate]

/-- C7: a PermissionDenied recognition error received while listening
returns the script to the not-listening state and leaves the conversation
history untouched (the handler, lines 336-362, involves no server
state). -/
theorem permission_denied_idle (sys : SystemState)
    (_hl : sys.script.isListening = true) :
    (systemRecognitionError sys ErrKind.permissionDenied).1.script.isListening = false ∧
    (systemRecognitionError sys ErrKind.permissionDenied).1.server.conversation_history =
      sys.server.conversation_history := by
  exact ⟨rfl, rfl⟩

theorem permission_denied_idle_witness :
    ((⟨⟨true, false, true⟩, ⟨[], []⟩⟩ : SystemState).script.isListening = true) ∧
    (systemRecognitionError ⟨⟨true, false, true⟩, ⟨[], []⟩⟩
      ErrKind.permissionDenied).1.script.isListening = false :=
  ⟨rfl, (permission_denied_idle ⟨⟨true, false, true⟩, ⟨[], []⟩⟩ rfl).1⟩

/-- C8 (counterexample): a duplicate voice query is dropped with NO log
entry — the `if` at line 512 has no `else` branch, so nothing at all runs:
the output list is empty (in particular it contains no `Output.log`),
contradicting the claim that the drop is logged. -/
theorem duplicate_log_counterexample :
    (process_voice_query ⟨[], ["q_1"]⟩ none runFailConst "q" "1" "12:00:00").2.2 =
      ([] : List Output) := by
  decide

/-- C8 (amended): exact-duplicate dispatch suppression is the only error
with no user-visible output, and it is not logged either — the duplicate
is dropped entirely silently (no output of any kind, state unchanged);
every other error produces a user-visible message (the recognition error
status line is always non-empty, and an Answer Service exception shows an
`st.error` message). -/
theorem duplicate_silent_amended :
    (∀ (srv : ServerState) (agent : Option Unit)
        (run : String → Except String String) (c t now : String),
      (c ++ "_" ++ t) ∈ srv.processed_queries →
        process_voice_query srv agent run c t now = (srv, 0, [])) ∧
    (∀ (s : ScriptState) (k : ErrKind), (onerror s k).2.length ≠ 0) ∧
    (∀ (run : String → Except String String) (q e : String),
      run q = Except.error e →
        Output.error ("🚨 Error getting AI response: " ++ e) ∈
          (get_ai_response (some ()) run q).2) := by
  refine ⟨?_, ?_, ?_⟩
  · intro srv agent run c t now hdup
    unfold process_voice_query
    rw [if_pos hdup]
  · intro s k
    have hval : (onerror s k).2 = "Error: " ++ errorName k ++ ". " ++ errorMessageFor k := by
      unfold onerror
      split <;> rfl
    rw [hval, String.length_append, String.length_append, String.length_append]
    have h7 : ("Error: " : String).length = 7 := rfl
    omega
  · intro run q e hrun
    simp [get_ai_response, hrun]

theorem duplicate_silent_amended_witness :
    (("q" ++ "_" ++ "1") ∈ (⟨[], ["q_1"]⟩ : ServerState).processed_queries) ∧
    process_voice_query ⟨[], ["q_1"]⟩ none runFailConst "q" "1" "12:00:00" =
      ((⟨[], ["q_1"]⟩ : ServerState), 0, ([] : List Output)) ∧
    (onerror initialScript ErrKind.network).2.length ≠ 0 ∧
    Output.error ("🚨 Error getting AI response: " ++ "boom") ∈
      (get_ai_response (some ()) runFailConst "q").2 :=
  ⟨by decide,
   duplicate_silent_amended.1 ⟨[], ["q_1"]⟩ none runFailConst "q" "1" "12:00:00" (by decide),
   duplicate_silent_amended.2.1 initialScript ErrKind.network,
   duplicate_silent_amended.2.2 runFailConst "q" "boom" rfl⟩

/-- C9: the manual text-input path bypasses deduplication and speech
synthesis: every submission of a non-empty text query calls the Answer
Service and appends a conversation record (twice for two submissions of
the same text), `processed_queries` is never touched, and the answer is
only displayed (`st.success`) — no `bot_response` synthesis output is ever
emitted. -/
theorem text_input_bypass (srv : ServerState) (agent : Option Unit)
    (run : String → Except String String) (q now1 now2 : String) (hq : q ≠ "") :
    (process_text_query srv agent run q now1 true).2.1 = 1 ∧
    (process_text_query (process_text_query srv agent run q now1 true).1
        agent run q now2 true).2.1 = 1 ∧
    (process_text_query srv agent run q now1 true).1.processed_queries =
      srv.processed_queries ∧
    (process_text_query (process_text_query srv agent run q now1 true).1
        agent run q now2 true).1.processed_queries = srv.processed_queries ∧
    (process_text_query (process_text_query srv agent run q now1 true).1
        agent run q now2 true).1.conversation_history =
      srv.conversation_history ++ [⟨q, (get_ai_response agent run q).1, now1⟩] ++
        [⟨q, (get_ai_response agent run q).1, now2⟩] ∧
    Output.success ("**Bob:** " ++ (get_ai_response agent run q).1) ∈
      (process_text_query srv agent run q now1 true).2.2 ∧
    (∀ r : String, Output.synthesis r ∉ (process_text_query srv agent run q now1 true).2.2) := by
  have hcond : (true = true ∧ q ≠ "") := ⟨rfl, hq⟩
  have h1 : process_text_query srv agent run q now1 true =
      ({ conversation_history :=
           srv.conversation_history ++ [⟨q, (get_ai_response agent run q).1, now1⟩],
         processed_queries := srv.processed_queries },
       1,
       (get_ai_response agent run q).2 ++
         [Output.success ("**Bob:** " ++ (get_ai_response agent run q).1)]) := by
    unfold process_text_query
    rw [if_pos hcond]
  have h2 : ∀ srv2 : ServerState, process_text_query srv2 agent run q now2 true =
      ({ conversation_history :=
           srv2.conversation_history ++ [⟨q, (get_ai_response agent run q).1, now2⟩],
         processed_queries := srv2.processed_queries },
       1,
       (get_ai_response agent run q).2 ++
         [Output.success ("**Bob:** " ++ (get_ai_response agent run q).1)]) := by
    intro srv2
    unfold process_text_query
    rw [if_pos hcond]
  refine ⟨by rw [h1], by rw [h1, h2], by rw [h1], by rw [h1, h2], by rw [h1, h2], ?_, ?_⟩
  · rw [h1]
    simp
  · intro r
    rw [h1]
    cases agent with
    | none => simp [get_ai_response]
    | some a =>
      cases hr : run q with
      | ok content => simp [get_ai_response, hr]
      | error e => simp [get_ai_response, hr]

theorem text_input_bypass_witness :
    (("hi" : String) ≠ "") ∧
    (process_text_query ⟨[], []⟩ (some ()) runOkConst "hi" "12:00:00" true).2.1 = 1 ∧
    (process_text_query (process_text_query ⟨[], []⟩ (some ()) runOkConst
        "hi" "12:00:00" true).1 (some ()) runOkConst "hi" "12:00:05" true).2.1 = 1 :=
  ⟨by decide,
   (text_input_bypass ⟨[], []⟩ (some ()) runOkConst "hi" "12:00:00" "12:00:05"
     (by decide)).1,
   (text_input_bypass ⟨[], []⟩ (some ()) runOkConst "hi" "12:00:00" "12:00:05"
     (by decide)).2.1⟩

/-- C10: the answer utterance's `onend` (line 428) resets the wake-word
flag; starting from the initial script state, a trace of events never
produces more dispatches than it contains wake-word-matching results, and
immediately after any dispatching result (which re-initializes the script
via the page navigation) further dispatches again require at least as many
wake-word-matching results — so two Answer Service dispatches never occur
from the voice path without an intervening wake-word match. -/
theorem wake_gate_invariant :
    (∀ s : ScriptState, (scriptStep s RecEvent.synthEnd).1.wakeWordDetected = false) ∧
    (∀ es : List RecEvent,
      dispatchCount (runScript initialScript es).2 ≤ wakeResultCount es) ∧
    (∀ (s : ScriptState) (u : String) (es : List RecEvent),
      (∃ q, ScriptOut.dispatch q ∈ (onresult s u).2) →
        dispatchCount (runScript (onresult s u).1 es).2 ≤ wakeResultCount es) := by
  refine ⟨fun s => rfl, ?_, ?_⟩
  · intro es
    have h := runScript_dispatch_le es initialScript
    simpa [initialScript] using h
  · intro s u es ⟨q, hq⟩
    cases hb : s.wakeWordDetected with
    | false =>
      cases hcw : containsWakeWord (jsTrim (jsToLower u)) with
      | true => simp [onresult, hb, hcw] at hq
      | false => simp [onresult, hb, hcw] at hq
    | true =>
      have hst : (onresult s u).1 = initialScript := by
        simp [onresult, hb]
      rw [hst]
      have h := runScript_dispatch_le es initialScript
      simpa [initialScript] using h

theorem wake_gate_invariant_witness :
    (∃ q, ScriptOut.dispatch q ∈ (onresult ⟨false, true, false⟩ "what time").2) ∧
    dispatchCount (runScript (onresult ⟨false, true, false⟩ "what time").1 []).2 ≤
      wakeResultCount [] :=
  ⟨⟨"what time", by decide⟩,
   wake_gate_invariant.2.2 ⟨false, true, false⟩ "what time" [] ⟨"what time", by decide⟩⟩
